import Mathlib

/-!
Verification of the user-registration test harness
(`src/drivers/simulated_registration_test.py`,
`src/drivers/standalone_test_runner.py`,
`src/drivers/selenium_registration_tests.py`).

Pure Python functions are embedded as Lean functions.  Effects are
lambda-lifted into explicit arguments: the simulated latency and the
generated user id of `simulate_http_request` (`random.uniform`,
`random.randint`), wall-clock timestamps (`datetime.now()`, `time.time()`),
and the WebDriver calls of the Selenium runner (an oracle record whose
methods may raise, modelled with `Except`).  Python floats are modelled as
exact rationals (`ℚ`); the properties below do not depend on rounding.
-/

namespace UserReg

/-- A registration payload.  The simulated validator reads only
`data.get("username", "")`, `data.get("email", "")` and
`data.get("password", "")`; a missing key behaves as the empty string, so a
payload is its three relevant fields. -/
structure Payload where
  username : String
  email : String
  password : String
deriving Repr, DecidableEq

/-- Python's substring test `needle in hay` on strings: `needle` occurs as a
contiguous substring of `hay`. -/
def strContains (hay needle : String) : Bool :=
  decide (needle.data <:+: hay.data)

/-- `_is_valid_data` from `simulated_registration_test.py` (lines 48-61):
`not data.get(k)` is true exactly on the empty string once the default
`""` is taken into account. -/
def isValidData (d : Payload) : Bool :=
  if d.username == "" || d.username.length < 3 then false
  else if d.email == "" || !(strContains d.email "@") then false
  else if d.password == "" || d.password.length < 8 then false
  else if strContains d.username "DROP TABLE" then false
  else if strContains d.username "<script>" then false
  else true

/-- `_get_error_message` from `simulated_registration_test.py`
(lines 63-82), the if/elif chain in source order. -/
def getErrorMessage (d : Payload) : String :=
  if d.username == "" then "Username is required"
  else if d.username.length < 3 then "Username must be at least 3 characters"
  else if d.email == "" then "Email is required"
  else if !(strContains d.email "@") then "Please enter a valid email address"
  else if d.password == "" then "Password is required"
  else if d.password.length < 8 then "Password must be at least 8 characters"
  else if strContains d.username "DROP TABLE" then "Invalid characters in username"
  else if strContains d.username "<script>" then "Invalid characters in username"
  else "Registration failed"

/-- The `body` dict of a simulated response: either
`{"message": ..., "user_id": ...}` or `{"error": ...}`. -/
inductive ResponseBody where
  | success (message : String) (user_id : Nat)
  | error (msg : String)
deriving Repr, DecidableEq

/-- `response["body"].get("error", "")`: the success body has no
`"error"` key, so the lookup defaults to `""`. -/
def bodyError : ResponseBody → String
  | .success _ _ => ""
  | .error m => m

/-- The dict returned by `simulate_http_request`. -/
structure SimResponse where
  status_code : Nat
  response_time : ℚ
  body : ResponseBody
  success : Bool
deriving Repr, DecidableEq

/-- `simulate_http_request` from `simulated_registration_test.py`
(lines 25-46).  The simulated latency (`random.uniform(0.1, 2.0)`) and
generated id (`random.randint(1000, 9999)`) are injected as arguments. -/
def simulateHttpRequest (d : Payload) (response_time : ℚ) (user_id : Nat) :
    SimResponse :=
  if isValidData d then
    { status_code := 201, response_time,
      body := .success "Registration successful" user_id, success := true }
  else
    { status_code := 400, response_time,
      body := .error (getErrorMessage d), success := false }

/-- One entry of `self.test_results` in the simulated runner. -/
structure SimTestResult where
  test_id : String
  description : String
  test_data : Payload
  expected_result : String
  actual_response : SimResponse
  execution_time : ℚ
  passed : Bool
  timestamp : String
deriving Repr, DecidableEq

/-- `run_test_case` from `simulated_registration_test.py` (lines 84-114):
issue the simulated request, classify pass/fail
(lines 92-96: `passed = response["success"]` when the expectation is the
string `"success"`, otherwise
`passed = not response["success"] and expected_result in body["error"]`),
and build the result record. -/
def runTestCase (test_id description : String) (test_data : Payload)
    (expected_result : String) (response_time : ℚ) (user_id : Nat)
    (execution_time : ℚ) (timestamp : String) : SimTestResult :=
  let response := simulateHttpRequest test_data response_time user_id
  let passed :=
    if expected_result == "success" then response.success
    else !response.success && strContains (bodyError response.body) expected_result
  { test_id, description, test_data, expected_result,
    actual_response := response, execution_time, passed, timestamp }

/-! ### Report generation in the simulated runner
(`generate_test_report`, lines 305-357) -/

/-- The `"summary"` object assembled by `generate_test_report`. -/
structure ReportSummary where
  total_tests : Nat
  passed : Nat
  failed : Nat
  pass_rate : ℚ
  execution_time : String
  test_environment : String
deriving Repr, DecidableEq

/-- The `report_data` dict returned by `generate_test_report`. -/
structure ReportData where
  summary : ReportSummary
  test_results : List SimTestResult
deriving Repr, DecidableEq

/-- `generate_test_report` (lines 305-357): counts, the guarded pass rate
`(passed / total) * 100 if total_tests > 0 else 0`, the
`datetime.now().isoformat()` timestamp (injected as `now`), the base URL,
and the raw result list. -/
def generateTestReport (base_url : String) (results : List SimTestResult)
    (now : String) : ReportData :=
  let total_tests := results.length
  let passed_tests := (results.filter (·.passed)).length
  { summary :=
      { total_tests
        passed := passed_tests
        failed := total_tests - passed_tests
        pass_rate :=
          if total_tests > 0 then ((passed_tests : ℚ) / total_tests) * 100 else 0
        execution_time := now
        test_environment := base_url }
    test_results := results }

/-- The performance block printed by `generate_test_report`
(lines 323-333). -/
structure PerfMetrics where
  avg_response_time : ℚ
  max_response_time : ℚ
  min_response_time : ℚ
deriving Repr, DecidableEq

/-- The response-time statistics `generate_test_report` prints: computed
(Python `sum`/`len`, and `max`/`min` over a non-empty list) only under the
`if response_times:` guard, hence `none` on an empty log. -/
def responseTimeMetrics (results : List SimTestResult) : Option PerfMetrics :=
  match results.map (fun r => r.actual_response.response_time) with
  | [] => none
  | t :: ts =>
    some { avg_response_time := (t :: ts).sum / (t :: ts).length
           max_response_time := ts.foldl max t
           min_response_time := ts.foldl min t }

/-! ### The standalone runner (`standalone_test_runner.py`) -/

/-- One entry of `self.test_results` in `StandaloneTestRunner`. -/
structure StdResult where
  test_id : String
  description : String
  category : String
  priority : String
  passed : Bool
  execution_time : ℚ
  timestamp : String
deriving Repr, DecidableEq

/-- `execute_test` (lines 29-58): the measured wall-clock duration and the
timestamp are injected; `passed` is hard-coded to `True`
(line 38, "All tests pass in this demo"). -/
def executeTest (test_id description category priority : String)
    (actual_execution_time : ℚ) (timestamp : String) : StdResult :=
  { test_id, description, category, priority, passed := true,
    execution_time := actual_execution_time, timestamp }

/-- The inputs `run_all_tests` feeds to `execute_test`, one per catalog
entry, together with the injected timing effects. -/
structure TestSpec where
  test_id : String
  description : String
  category : String
  priority : String
  execution_time : ℚ
  timestamp : String
deriving Repr, DecidableEq

/-- The standalone run loop: every catalog entry is passed to
`execute_test` and the result appended, so the log is the image of the
catalog. -/
def runStandalone (specs : List TestSpec) : List StdResult :=
  specs.map fun s =>
    executeTest s.test_id s.description s.category s.priority
      s.execution_time s.timestamp

/-- One `{"total": _, "passed": _}` entry of the `categories` /
`priorities` dicts, keyed by its dict key; the list order is Python dict
insertion order. -/
def bumpGroup (acc : List (String × Nat × Nat)) (key : String) (p : Bool) :
    List (String × Nat × Nat) :=
  if acc.any (fun e => e.1 == key) then
    acc.map fun e =>
      if e.1 == key then (e.1, e.2.1 + 1, e.2.2 + (if p then 1 else 0)) else e
  else acc ++ [(key, 1, if p then 1 else 0)]

/-- The grouping loop of `generate_summary_report` (lines 194-208) over one
field. -/
def groupBy (f : StdResult → String) (results : List StdResult) :
    List (String × Nat × Nat) :=
  results.foldl (fun acc r => bumpGroup acc (f r) r.passed) []

/-- The `"summary"` object of the standalone report. -/
structure StdSummary where
  total_tests : Nat
  passed : Nat
  failed : Nat
  pass_rate : ℚ
  total_execution_time : ℚ
  avg_execution_time : ℚ
deriving Repr, DecidableEq

/-- The value returned by `generate_summary_report`, plus the
fastest/slowest results it selects with `min`/`max` at lines 233-234. -/
structure StdReport where
  summary : StdSummary
  categories : List (String × Nat × Nat)
  priorities : List (String × Nat × Nat)
  test_results : List StdResult
  fastest_test : StdResult
  slowest_test : StdResult
deriving Repr, DecidableEq

/-- `generate_summary_report` (lines 178-259).  Pass rate and average are
guarded against the empty log (`if total_tests > 0`, `if execution_times`),
but `min(self.test_results, key=...)`/`max(...)` at lines 233-234 are not:
on an empty log Python raises `ValueError`, modelled as `Except.error`.
Python's `min`/`max` return the first element attaining the extremum, as
the fold does. -/
def generateSummaryReport (results : List StdResult) :
    Except String StdReport :=
  let total_tests := results.length
  let passed_tests := (results.filter (·.passed)).length
  let failed_tests := total_tests - passed_tests
  let pass_rate : ℚ :=
    if total_tests > 0 then ((passed_tests : ℚ) / total_tests) * 100 else 0
  let execution_times := results.map (·.execution_time)
  let total_execution_time := execution_times.sum
  let avg_execution_time : ℚ :=
    if !execution_times.isEmpty then
      total_execution_time / execution_times.length
    else 0
  let categories := groupBy (·.category) results
  let priorities := groupBy (·.priority) results
  match results with
  | [] => .error "ValueError: min() arg is an empty sequence"
  | x :: xs =>
    .ok { summary :=
            { total_tests, passed := passed_tests, failed := failed_tests,
              pass_rate, total_execution_time, avg_execution_time }
          categories, priorities, test_results := results
          fastest_test :=
            xs.foldl (fun best r =>
              if r.execution_time < best.execution_time then r else best) x
          slowest_test :=
            xs.foldl (fun best r =>
              if r.execution_time > best.execution_time then r else best) x }

/-! ### The Selenium runner (`selenium_registration_tests.py`)

The WebDriver is an oracle: each helper either returns its value or raises
(`Except.error reason`, covering `TimeoutException`, `NoSuchElementException`
and any other exception caught by the blanket `except Exception` of
`execute_test_case`). -/

/-- The behaviour of the browser session during one test case, one field
per helper of `SeleniumRegistrationTests`. -/
structure Browser where
  navigate_to_registration : Except String Bool
  fill_form_field : String → String → Except String Bool
  submit_form : Except String Bool
  wait_for_response : Except String Bool
  get_success_message : Except String (Option String)
  get_error_message : Except String (Option String)

/-- The keys of `self.selectors` (lines 47-59); `execute_test_case` fills
only payload fields whose name is a selector key. -/
def selectorKeys : List String :=
  ["username", "email", "password", "confirm_password", "first_name",
   "last_name", "phone", "submit_button", "error_message",
   "success_message", "form"]

/-- Python `msg or default` where `msg : Option String`: `None` and the
empty string are both falsy. -/
def pyOrElse (s : Option String) (default : String) : String :=
  match s with
  | none => default
  | some t => if t == "" then default else t

/-- One entry of `self.test_results` in the Selenium runner, as built by
`record_test_result` (lines 202-221). -/
structure SelResult where
  test_id : String
  description : String
  passed : Bool
  execution_time : ℚ
  result_message : String
  timestamp : String
deriving Repr, DecidableEq

/-- `record_test_result` (lines 202-221); the measured duration and
timestamp are injected. -/
def recordTestResult (test_id description : String) (passed : Bool)
    (result_message : String) (execution_time : ℚ) (timestamp : String) :
    SelResult :=
  { test_id, description, passed, execution_time, result_message, timestamp }

/-- The `for field, value in test_data.items()` loop of
`execute_test_case` (lines 173-176): fields outside `selectorKeys` are
skipped; the first `fill_form_field` returning `False` stops the loop
(`some field`); an exception propagates to the enclosing handler. -/
def fillFields (b : Browser) : List (String × String) →
    Except String (Option String)
  | [] => .ok none
  | (f, v) :: rest =>
    if selectorKeys.contains f then do
      let ok ← b.fill_form_field f v
      if ok then fillFields b rest else pure (some f)
    else fillFields b rest

/-- The body of the `try:` block of `execute_test_case` (lines 167-197),
yielding the `(passed, actual_result)` pair handed to
`record_test_result`, or the exception it raises. -/
def executeTestCaseInner (b : Browser) (test_data : List (String × String))
    (expected_result_type : String) : Except String (Bool × String) := do
  let nav ← b.navigate_to_registration
  if !nav then return (false, "Failed to load page")
  match (← fillFields b test_data) with
  | some f => return (false, "Failed to fill " ++ f)
  | none =>
    let sub ← b.submit_form
    if !sub then return (false, "Failed to submit form")
    let w ← b.wait_for_response
    if !w then return (false, "No response received")
    let success_msg ← b.get_success_message
    let error_msg ← b.get_error_message
    if expected_result_type == "success" then
      return (success_msg.isSome, pyOrElse success_msg "No success message")
    else
      return (error_msg.isSome, pyOrElse error_msg "No error message")

/-- `execute_test_case` (lines 162-200): the `except Exception` handler
converts any raised exception into a failed result whose message is
`"Exception: " ++ reason`, so the function is total. -/
def executeTestCase (b : Browser) (test_id description : String)
    (test_data : List (String × String)) (expected_result_type : String)
    (execution_time : ℚ) (timestamp : String) : SelResult :=
  match executeTestCaseInner b test_data expected_result_type with
  | .ok (passed, msg) =>
    recordTestResult test_id description passed msg execution_time timestamp
  | .error e =>
    recordTestResult test_id description false ("Exception: " ++ e)
      execution_time timestamp

/-- One catalog entry of the Selenium run. -/
structure SelCase where
  test_id : String
  description : String
  test_data : List (String × String)
  expected_result_type : String
  execution_time : ℚ
  timestamp : String

/-- The Selenium run loop: each test method calls `execute_test_case`
once, which always appends exactly one result. -/
def runSeleniumCases (b : Browser) (cases : List SelCase) : List SelResult :=
  cases.map fun c =>
    executeTestCase b c.test_id c.description c.test_data
      c.expected_result_type c.execution_time c.timestamp

/-! ### Auxiliary definitions for stating the claims -/

/-- Python `s.lower()` (ASCII as used here). -/
def pyLower (s : String) : String :=
  ⟨s.data.map Char.toLower⟩

/-- Modelled from the spec: the validation rules of §4.3 in the order the
spec fixes (username-empty → username-length → email-empty → email-format
→ password-empty → password-length → SQL-pattern → XSS-pattern), each with
its message; to be compared against `getErrorMessage`. -/
def validationRules : List ((Payload → Bool) × String) :=
  [(fun d => d.username == "", "Username is required"),
   (fun d => d.username.length < 3, "Username must be at least 3 characters"),
   (fun d => d.email == "", "Email is required"),
   (fun d => !(strContains d.email "@"), "Please enter a valid email address"),
   (fun d => d.password == "", "Password is required"),
   (fun d => d.password.length < 8, "Password must be at least 8 characters"),
   (fun d => strContains d.username "DROP TABLE", "Invalid characters in username"),
   (fun d => strContains d.username "<script>", "Invalid characters in username")]

/-- Modelled from the spec: the message of the first rule of
`validationRules` that matches, with the generic failure as fallback. -/
def firstMatchingError (d : Payload) : String :=
  match validationRules.find? (fun rule => rule.1 d) with
  | some rule => rule.2
  | none => "Registration failed"

/-- A browser session whose first WebDriver call raises, used to exercise
the exception path of `executeTestCase`. -/
def crashBrowser : Browser :=
  { navigate_to_registration := .error "TimeoutException"
    fill_form_field := fun _ _ => .ok true
    submit_form := .ok true
    wait_for_response := .ok true
    get_success_message := .ok none
    get_error_message := .ok none }

/-- A browser session in which every WebDriver call succeeds, the page
reporting success message `s` and error message `e`; used to isolate the
classification step of the Selenium runner. -/
def happyBrowser (s e : Option String) : Browser :=
  { navigate_to_registration := .ok true
    fill_form_field := fun _ _ => .ok true
    submit_form := .ok true
    wait_for_response := .ok true
    get_success_message := .ok s
    get_error_message := .ok e }

/-- The six field-validation messages of the first six branches of
`_get_error_message` (the count claim C10 names). -/
def fieldValidationMessages : List String :=
  ["Username is required", "Username must be at least 3 characters",
   "Email is required", "Please enter a valid email address",
   "Password is required", "Password must be at least 8 characters"]

/-! ### Helper lemmas -/

theorem strContains_iff {hay needle : String} :
    strContains hay needle = true ↔ needle.data <:+: hay.data := by
  simp [strContains]

theorem strContains_length_le {hay needle : String}
    (h : strContains hay needle = true) : needle.length ≤ hay.length := by
  obtain ⟨nd⟩ := needle
  obtain ⟨hd⟩ := hay
  exact (strContains_iff.mp h).length_le

theorem strContains_empty (hay : String) : strContains hay "" = true :=
  strContains_iff.mpr List.nil_infix

theorem isValidData_false_of_bad {d : Payload}
    (h : strContains d.username "DROP TABLE" = true ∨
         strContains d.username "<script>" = true) :
    isValidData d = false := by
  unfold isValidData
  split_ifs with h1 h2 h3 h4 h5 <;> try rfl
  rcases h with h | h
  · exact absurd h h4
  · exact absurd h h5

/-- Refinement: the if/elif chain of `_get_error_message` computes the
message of the first matching rule of the spec's ordered rule list, with
`"Registration failed"` as the fallback. -/
theorem getErrorMessage_eq_firstMatching (d : Payload) :
    getErrorMessage d = firstMatchingError d := by
  unfold getErrorMessage firstMatchingError validationRules
  split_ifs with h1 h2 h3 h4 h5 h6 h7 h8 <;>
    (try simp only [Bool.beq_eq_decide_eq] at *) <;>
    simp [List.find?, *]

/-- `generate_summary_report` on a non-empty log, written out: the
`match` of the embedding always takes the `.ok` arm. -/
theorem generateSummaryReport_cons (x : StdResult) (xs : List StdResult) :
    generateSummaryReport (x :: xs) =
      .ok { summary :=
              { total_tests := (x :: xs).length
                passed := ((x :: xs).filter (·.passed)).length
                failed := (x :: xs).length - ((x :: xs).filter (·.passed)).length
                pass_rate :=
                  if (x :: xs).length > 0 then
                    ((((x :: xs).filter (·.passed)).length : ℚ) /
                      (x :: xs).length) * 100
                  else 0
                total_execution_time := ((x :: xs).map (·.execution_time)).sum
                avg_execution_time :=
                  if !((x :: xs).map (·.execution_time)).isEmpty then
                    ((x :: xs).map (·.execution_time)).sum /
                      ((x :: xs).map (·.execution_time)).length
                  else 0 }
            categories := groupBy (·.category) (x :: xs)
            priorities := groupBy (·.priority) (x :: xs)
            test_results := x :: xs
            fastest_test :=
              xs.foldl (fun best r =>
                if r.execution_time < best.execution_time then r else best) x
            slowest_test :=
              xs.foldl (fun best r =>
                if r.execution_time > best.execution_time then r else best) x } :=
  rfl

theorem except_bind_ok {ε α β : Type} (a : α) (f : α → Except ε β) :
    ((Except.ok a : Except ε α) >>= f) = f a := rfl

theorem happyBrowser_nav (s e : Option String) :
    (happyBrowser s e).navigate_to_registration = .ok true := rfl

theorem happyBrowser_submit (s e : Option String) :
    (happyBrowser s e).submit_form = .ok true := rfl

theorem happyBrowser_wait (s e : Option String) :
    (happyBrowser s e).wait_for_response = .ok true := rfl

theorem happyBrowser_success (s e : Option String) :
    (happyBrowser s e).get_success_message = .ok s := rfl

theorem happyBrowser_error (s e : Option String) :
    (happyBrowser s e).get_error_message = .ok e := rfl

/-- When every `fill_form_field` call succeeds, the fill loop reports no
failed field. -/
theorem fillFields_happy (s e : Option String) (l : List (String × String)) :
    fillFields (happyBrowser s e) l = .ok none := by
  induction l with
  | nil => rfl
  | cons p rest ih =>
    obtain ⟨f, v⟩ := p
    cases hf : selectorKeys.contains f <;>
      simp only [fillFields, hf] <;> exact ih

/-- The classification step of the Selenium runner in isolation: with every
WebDriver call succeeding, `passed` is the presence of the success message
for a `"success"` expectation and the presence of the error message
otherwise — the success flag and the expected substring play no role. -/
theorem selenium_classification (s e : Option String)
    (test_id description : String) (data : List (String × String))
    (expected : String) (et : ℚ) (ts : String) :
    (executeTestCase (happyBrowser s e) test_id description data expected
        et ts).passed =
      (if expected = "success" then s.isSome else e.isSome) := by
  by_cases h : expected = "success" <;>
    simp [executeTestCase, executeTestCaseInner, except_bind_ok,
      happyBrowser_nav, happyBrowser_submit, happyBrowser_wait,
      happyBrowser_success, happyBrowser_error, fillFields_happy,
      recordTestResult, h]

/-! ### The claims -/

/-- C1 (counterexample): the payload with username `"DROP TABLE"` and an
empty email contains the SQL pattern and is rejected, but its error
message is `"Email is required"`, not `"Invalid characters in username"` —
so the message is not independent of the other fields' validity. -/
theorem sql_xss_message_cex :
    strContains (Payload.mk "DROP TABLE" "" "LongEnough1!").username
      "DROP TABLE" = true ∧
    (simulateHttpRequest ⟨"DROP TABLE", "", "LongEnough1!"⟩ 1 1000).success =
      false ∧
    (simulateHttpRequest ⟨"DROP TABLE", "", "LongEnough1!"⟩ 1 1000).body =
      .error "Email is required" ∧
    "Email is required" ≠ "Invalid characters in username" := by decide

/-- C1 (amended): a payload whose username contains `"DROP TABLE"` or
`"<script>"` always yields `success = false`; the message is
`"Invalid characters in username"` provided email and password are
themselves valid (email non-empty containing `"@"`, password non-empty of
length at least 8) — otherwise the earlier field error takes precedence. -/
theorem sql_xss_always_invalid_chars (d : Payload) (rt : ℚ) (uid : Nat)
    (h : strContains d.username "DROP TABLE" = true ∨
         strContains d.username "<script>" = true) :
    (simulateHttpRequest d rt uid).success = false ∧
    ((d.email ≠ "" ∧ strContains d.email "@" = true ∧ d.password ≠ "" ∧
        8 ≤ d.password.length) →
      (simulateHttpRequest d rt uid).body =
        .error "Invalid characters in username") := by
  have hv := isValidData_false_of_bad h
  refine ⟨by simp [simulateHttpRequest, hv], ?_⟩
  rintro ⟨he, ha, hp, hl⟩
  have hlen : 8 ≤ d.username.length := by
    rcases h with h | h
    · have h10 : ("DROP TABLE" : String).length = 10 := by decide
      have := strContains_length_le h
      omega
    · have h8 : ("<script>" : String).length = 8 := by decide
      have := strContains_length_le h
      omega
  have hu3 : ¬ d.username.length < 3 := by omega
  have hune : d.username ≠ "" := by
    intro he'
    rw [he'] at hlen
    simp at hlen
  have hp8 : ¬ d.password.length < 8 := by omega
  simp only [simulateHttpRequest, hv, Bool.false_eq_true, if_false,
    if_neg, getErrorMessage]
  rcases h with h | h
  · simp [hune, hu3, he, ha, hp, hp8, h]
  · by_cases h7 : strContains d.username "DROP TABLE" = true
    · simp [hune, hu3, he, ha, hp, hp8, h7]
    · simp [hune, hu3, he, ha, hp, hp8, h7, h]

/-- C1 (witness): the amended theorem applied to the payload
`{"username": "x DROP TABLE", "email": "a@b.com",
"password": "LongEnough1!"}`. -/
theorem sql_xss_always_invalid_chars_witness :
    (simulateHttpRequest ⟨"x DROP TABLE", "a@b.com", "LongEnough1!"⟩ 1
        1000).success = false ∧
    (simulateHttpRequest ⟨"x DROP TABLE", "a@b.com", "LongEnough1!"⟩ 1
        1000).body = .error "Invalid characters in username" :=
  have h := sql_xss_always_invalid_chars
    ⟨"x DROP TABLE", "a@b.com", "LongEnough1!"⟩ 1 1000 (Or.inl (by decide))
  ⟨h.1, h.2 ⟨by decide, by decide, by decide, by decide⟩⟩

/-- C2 (counterexample): with expected error text
`"username is required"` against the actual message
`"Username is required"`, the outcome fails and the expected substring
does occur case-insensitively, yet the simulated runner classifies the
case as not passed — the comparison in the code is case-sensitive. -/
theorem classification_case_insensitive_cex :
    (runTestCase "REG_004" "empty username" ⟨"", "a@b.com", "Pass12345"⟩
       "username is required" 1 1000 1 "t").passed = false ∧
    (runTestCase "REG_004" "empty username" ⟨"", "a@b.com", "Pass12345"⟩
       "username is required" 1 1000 1 "t").actual_response.success =
      false ∧
    strContains
      (pyLower (bodyError (runTestCase "REG_004" "empty username"
        ⟨"", "a@b.com", "Pass12345"⟩ "username is required" 1 1000 1
        "t").actual_response.body))
      (pyLower "username is required") = true := by decide

/-- C2 (amended): in the simulated runner, a case with expected outcome
`"success"` passes iff the outcome succeeded; any other expected value is
a required substring and the case passes iff the outcome failed and the
expected text occurs in the error message, compared case-sensitively.  In
the Selenium runner (all WebDriver calls succeeding), `passed` is merely
the presence of the success/error message on the page. -/
theorem classification_rule (test_id description : String) (d : Payload)
    (expected : String) (rt : ℚ) (uid : Nat) (et : ℚ) (ts : String) :
    ((runTestCase test_id description d expected rt uid et ts).passed =
        true ↔
      (if expected = "success"
       then (simulateHttpRequest d rt uid).success = true
       else (simulateHttpRequest d rt uid).success = false ∧
            expected.data <:+:
              (bodyError (simulateHttpRequest d rt uid).body).data)) ∧
    (∀ (s e : Option String) (data : List (String × String)),
      (executeTestCase (happyBrowser s e) test_id description data expected
          et ts).passed =
        (if expected = "success" then s.isSome else e.isSome)) := by
  constructor
  · by_cases h : expected = "success"
    · simp [runTestCase, h]
    · have hb : (expected == "success") = false := by simp [h]
      simp [runTestCase, hb, h, strContains]
  · intro s e data
    exact selenium_classification s e test_id description data expected et ts

/-- C3: the Selenium per-case step is total — every raised failure is
converted into a failed result whose message carries the reason prefixed
with `"Exception: "`, and the run loop yields exactly one result per case,
so no case's failure aborts the run. -/
theorem executor_failure_contained (b : Browser) (cases : List SelCase) :
    (runSeleniumCases b cases).length = cases.length ∧
    ∀ (test_id description : String) (data : List (String × String))
      (expected : String) (et : ℚ) (ts : String) (e : String),
      executeTestCaseInner b data expected = .error e →
        executeTestCase b test_id description data expected et ts =
          recordTestResult test_id description false ("Exception: " ++ e)
            et ts := by
  refine ⟨by simp [runSeleniumCases], ?_⟩
  intro _ _ data expected _ _ e h
  simp [executeTestCase, h]

/-- C3 (witness): a browser whose first call raises `TimeoutException`
still yields one TestResult, failed, with the exception as message. -/
theorem executor_failure_contained_witness :
    (runSeleniumCases crashBrowser
        [⟨"REG_001", "valid data", [("username", "u")], "success", 1,
          "t"⟩]).length = 1 ∧
    executeTestCase crashBrowser "REG_001" "valid data" [("username", "u")]
        "success" 1 "t" =
      recordTestResult "REG_001" "valid data" false
        ("Exception: " ++ "TimeoutException") 1 "t" :=
  have h := executor_failure_contained crashBrowser
    [⟨"REG_001", "valid data", [("username", "u")], "success", 1, "t"⟩]
  ⟨h.1, h.2 "REG_001" "valid data" [("username", "u")] "success" 1 "t"
    "TimeoutException" rfl⟩

/-- C4: on the empty result log the simulated runner's aggregator yields
pass rate 0 with the response-time block absent, but the standalone
runner's `generate_summary_report` raises `ValueError` from `min()` over
the empty list — the unguarded `min`/`max` at lines 233-234 contradict the
guarded pass rate and average in the same function. -/
theorem empty_log_aggregation :
    generateSummaryReport [] =
      Except.error "ValueError: min() arg is an empty sequence" ∧
    (generateTestReport "http://localhost:5003" []
        "2025-10-12T00:00:00").summary.pass_rate = 0 ∧
    responseTimeMetrics [] = none :=
  ⟨rfl, by decide, rfl⟩

/-- C5 (counterexample): `generate_test_report` embeds
`datetime.now().isoformat()` in the summary, so two recomputations over
the same (empty) log at different instants yield different report
values. -/
theorem report_depends_on_clock_cex :
    generateTestReport "http://localhost:5003" [] "2025-01-01T00:00:00" ≠
      generateTestReport "http://localhost:5003" [] "2025-01-01T00:00:01" := by
  decide

/-- C5 (amended): every component of the report except the
`execution_time` timestamp is a pure, deterministic function of the result
log (and the configured base URL): recomputation at any two instants
agrees on all counts, the pass rate, the environment and the embedded
results. -/
theorem report_pure_up_to_timestamp (base_url : String)
    (results : List SimTestResult) (now1 now2 : String) :
    (generateTestReport base_url results now1).summary.total_tests =
      (generateTestReport base_url results now2).summary.total_tests ∧
    (generateTestReport base_url results now1).summary.passed =
      (generateTestReport base_url results now2).summary.passed ∧
    (generateTestReport base_url results now1).summary.failed =
      (generateTestReport base_url results now2).summary.failed ∧
    (generateTestReport base_url results now1).summary.pass_rate =
      (generateTestReport base_url results now2).summary.pass_rate ∧
    (generateTestReport base_url results now1).summary.test_environment =
      (generateTestReport base_url results now2).summary.test_environment ∧
    (generateTestReport base_url results now1).test_results =
      (generateTestReport base_url results now2).test_results :=
  ⟨rfl, rfl, rfl, rfl, rfl, rfl⟩

/-- C6: `_get_error_message` returns the first matching rule of the fixed
order username-empty → username-length → email-empty → email-format →
password-empty → password-length → SQL-pattern → XSS-pattern → generic
failure, and `simulate_http_request` produces status 201 with the
generated user id on valid data and status 400 with that first matching
error otherwise. -/
theorem error_order_and_statuses (d : Payload) (rt : ℚ) (uid : Nat) :
    getErrorMessage d = firstMatchingError d ∧
    (if isValidData d then
        simulateHttpRequest d rt uid =
          { status_code := 201, response_time := rt,
            body := .success "Registration successful" uid, success := true }
      else
        simulateHttpRequest d rt uid =
          { status_code := 400, response_time := rt,
            body := .error (firstMatchingError d), success := false }) := by
  refine ⟨getErrorMessage_eq_firstMatching d, ?_⟩
  by_cases h : isValidData d = true
  · simp [h, simulateHttpRequest]
  · have h' : isValidData d = false := by simpa using h
    simp [h', simulateHttpRequest, getErrorMessage_eq_firstMatching d]

/-- C7: on the two reference payloads the simulated executor is
deterministic for every injected latency and user id: `"ab"` is rejected
with the username-length message, `"validuser"` is accepted with
status 201. -/
theorem reference_payloads_deterministic (rt : ℚ) (uid : Nat) :
    (simulateHttpRequest ⟨"ab", "a@b.com", "LongEnough1!"⟩ rt
        uid).success = false ∧
    (simulateHttpRequest ⟨"ab", "a@b.com", "LongEnough1!"⟩ rt uid).body =
      .error "Username must be at least 3 characters" ∧
    (simulateHttpRequest ⟨"validuser", "v@b.com", "LongEnough1!"⟩ rt
        uid).success = true ∧
    (simulateHttpRequest ⟨"validuser", "v@b.com", "LongEnough1!"⟩ rt
        uid).status_code = 201 := by
  have h1 : isValidData ⟨"ab", "a@b.com", "LongEnough1!"⟩ = false := by
    decide
  have h2 : isValidData ⟨"validuser", "v@b.com", "LongEnough1!"⟩ = true := by
    decide
  have h3 : getErrorMessage ⟨"ab", "a@b.com", "LongEnough1!"⟩ =
      "Username must be at least 3 characters" := by decide
  simp [simulateHttpRequest, h1, h2, h3]

/-- C8: the standalone runner marks every result passed, and for any
non-empty run the summary report is produced with pass rate 100 and failed
count 0. -/
theorem standalone_always_passes (specs : List TestSpec) :
    (∀ r ∈ runStandalone specs, r.passed = true) ∧
    (specs ≠ [] →
      ∃ rep, generateSummaryReport (runStandalone specs) = .ok rep ∧
        rep.summary.pass_rate = 100 ∧ rep.summary.failed = 0) := by
  have hall : ∀ r ∈ runStandalone specs, r.passed = true := by
    intro r hr
    rcases List.mem_map.mp hr with ⟨s, _, rfl⟩
    rfl
  refine ⟨hall, ?_⟩
  intro hne
  obtain ⟨s, ss, rfl⟩ : ∃ s ss, specs = s :: ss := by
    cases specs with
    | nil => exact absurd rfl hne
    | cons s ss => exact ⟨s, ss, rfl⟩
  have hx : runStandalone (s :: ss) =
      executeTest s.test_id s.description s.category s.priority
        s.execution_time s.timestamp :: runStandalone ss := rfl
  have hfilter :
      (runStandalone (s :: ss)).filter (·.passed) =
        runStandalone (s :: ss) :=
    List.filter_eq_self.mpr (fun a ha => by simpa using hall a ha)
  rw [hx, generateSummaryReport_cons]
  rw [hx] at hfilter
  refine ⟨_, rfl, ?_, ?_⟩
  · have hlen : (executeTest s.test_id s.description s.category s.priority
        s.execution_time s.timestamp :: runStandalone ss).length > 0 := by
      simp
    simp only [hfilter, if_pos hlen]
    have hn : ((executeTest s.test_id s.description s.category s.priority
        s.execution_time s.timestamp :: runStandalone ss).length : ℚ) ≠
        0 := by
      exact_mod_cast Nat.pos_iff_ne_zero.mp hlen
    rw [div_self hn, one_mul]
  · simp [hfilter]

/-- C8 (witness): a one-case run, all passed, pass rate 100, failed 0. -/
theorem standalone_always_passes_witness :
    (∀ r ∈ runStandalone [⟨"REG_001", "valid data", "Positive", "High", 1,
        "t"⟩], r.passed = true) ∧
    (∃ rep, generateSummaryReport (runStandalone
        [⟨"REG_001", "valid data", "Positive", "High", 1, "t"⟩]) =
          .ok rep ∧
      rep.summary.pass_rate = 100 ∧ rep.summary.failed = 0) :=
  have h := standalone_always_passes
    [⟨"REG_001", "valid data", "Positive", "High", 1, "t"⟩]
  ⟨h.1, h.2 (by decide)⟩

/-- C9: any expected value other than `"success"` is treated as a
required error-message substring, and with the empty expected string the
case passes exactly when the outcome failed (the empty string is a
substring of every message). -/
theorem nonsuccess_expected_substring (test_id description : String)
    (d : Payload) (expected : String) (rt : ℚ) (uid : Nat) (et : ℚ)
    (ts : String) (h : expected ≠ "success") :
    (runTestCase test_id description d expected rt uid et ts).passed =
      (!(simulateHttpRequest d rt uid).success &&
        strContains (bodyError (simulateHttpRequest d rt uid).body)
          expected) ∧
    (expected = "" →
      (runTestCase test_id description d expected rt uid et ts).passed =
        !(simulateHttpRequest d rt uid).success) := by
  have hb : (expected == "success") = false := by simp [h]
  constructor
  · simp [runTestCase, hb]
  · intro he
    subst he
    simp [runTestCase, hb, strContains_empty]

/-- C9 (witness): the theorem at the empty expected string and the
all-empty payload. -/
theorem nonsuccess_expected_substring_witness :
    ((runTestCase "REG_004" "empty username" ⟨"", "", ""⟩ "" 1 1000 1
        "t").passed =
      (!(simulateHttpRequest ⟨"", "", ""⟩ 1 1000).success &&
        strContains (bodyError (simulateHttpRequest ⟨"", "", ""⟩ 1
          1000).body) "") ∧
     ("" = "" →
      (runTestCase "REG_004" "empty username" ⟨"", "", ""⟩ "" 1 1000 1
          "t").passed =
        !(simulateHttpRequest ⟨"", "", ""⟩ 1 1000).success)) :=
  nonsuccess_expected_substring "REG_004" "empty username" ⟨"", "", ""⟩ ""
    1 1000 1 "t" (by decide)

/-- C10 (counterexample): the payload whose username contains
`"DROP TABLE"` but whose other fields are valid is invalid, yet its
message `"Invalid characters in username"` is none of the six
field-validation messages — the set of reachable specific messages has
seven elements, not six. -/
theorem six_messages_cex :
    isValidData ⟨"abc DROP TABLE", "a@b.com", "LongPass1!"⟩ = false ∧
    getErrorMessage ⟨"abc DROP TABLE", "a@b.com", "LongPass1!"⟩ =
      "Invalid characters in username" ∧
    "Invalid characters in username" ∉ fieldValidationMessages := by decide

/-- C10 (amended): whenever `_is_valid_data` is false,
`_get_error_message` returns one of the seven specific messages (the six
field-validation messages or `"Invalid characters in username"`), never
the generic `"Registration failed"`: the fallback branch is unreachable
from `simulate_http_request`. -/
theorem invalid_data_never_generic (d : Payload)
    (h : isValidData d = false) :
    getErrorMessage d ∈
      fieldValidationMessages ++ ["Invalid characters in username"] ∧
    getErrorMessage d ≠ "Registration failed" := by
  unfold getErrorMessage
  split_ifs with h1 h2 h3 h4 h5 h6 h7 h8 <;>
    simp [fieldValidationMessages]
  unfold isValidData at h
  simp_all

/-- C10 (witness): the amended theorem at the all-empty payload. -/
theorem invalid_data_never_generic_witness :
    getErrorMessage ⟨"", "", ""⟩ ∈
      fieldValidationMessages ++ ["Invalid characters in username"] ∧
    getErrorMessage ⟨"", "", ""⟩ ≠ "Registration failed" :=
  invalid_data_never_generic ⟨"", "", ""⟩ (by decide)

end UserReg
